import Mathlib

/-!
Verification development for the PR-CoPilot repository.

The repository is a JavaScript glue service that creates GitHub pull
requests with enriched descriptions.  This file gives a shallow embedding
of its core pipeline: the JIRA-ticket reference extractor
(`extractJiraTickets` in the GitHub/JIRA utility module), the Figma-link
extractor and ticket-detail fetcher (`get_jira_ticket_details`), the
narrative generator (`generateDetailedSummary`), the diff analyzer
(`analyzeCodeDiff`) and the title-suffixing step of `create_pull_request`.

External effects (HTTP fetches, the LLM endpoint) are embedded as oracle
functions returning `Except`, mirroring JavaScript promise
resolution/rejection.  JavaScript strings are modelled by Lean `String`
(sequences of characters); the JavaScript regular expressions used by the
code are deterministic (no observable backtracking, as argued in comments
at each scanner), so they are embedded as executable left-to-right
scanners.
-/

namespace PrCopilot

/-! ## JavaScript primitives -/

/-- JavaScript `\w` character class: `[A-Za-z0-9_]`. -/
def isWordChar (c : Char) : Bool :=
  decide (('A' ≤ c ∧ c ≤ 'Z') ∨ ('a' ≤ c ∧ c ≤ 'z') ∨ ('0' ≤ c ∧ c ≤ '9') ∨ c = '_')

/-- Uppercase latin letter `[A-Z]`. -/
def isUpperAZ (c : Char) : Bool := decide ('A' ≤ c ∧ c ≤ 'Z')

/-- Decimal digit `[0-9]` (JavaScript `\d`). -/
def isDigit09 (c : Char) : Bool := decide ('0' ≤ c ∧ c ≤ '9')

/-- Character class `[A-Z0-9]`. -/
def isUpperOrDigit (c : Char) : Bool := isUpperAZ c || isDigit09 c

/-- JavaScript `\s` character class (ECMAScript WhiteSpace plus
LineTerminator): tab through carriage return, space, NBSP, and the
Unicode space separators. -/
def isJsWhitespace (c : Char) : Bool :=
  let n := c.toNat
  decide ((9 ≤ n ∧ n ≤ 13) ∨ n = 32 ∨ n = 0xA0 ∨ n = 0x1680 ∨
    (0x2000 ≤ n ∧ n ≤ 0x200A) ∨ n = 0x2028 ∨ n = 0x2029 ∨ n = 0x202F ∨
    n = 0x205F ∨ n = 0x3000 ∨ n = 0xFEFF)

/-- The lookahead class `[_\-\s\/]` of the ticket regex. -/
def isTicketSep (c : Char) : Bool :=
  c = '_' || c = '-' || isJsWhitespace c || c = '/'

/-- Semantics of spreading a JavaScript `Set` built from a list
(`[...new Set(xs)]`): drop every element equal to an earlier one,
keeping the order of first occurrence.  (Filtering the recursive result
rather than the argument yields the same first-occurrence semantics and
keeps the recursion structural.) -/
def jsSetDedup {α : Type} [DecidableEq α] : List α → List α
  | [] => []
  | x :: xs => x :: (jsSetDedup xs).filter (fun y => decide (y ≠ x))

/-- JavaScript `String.prototype.endsWith`. -/
def jsEndsWith (s suffix : String) : Bool :=
  suffix.data.isSuffixOf s.data

/-- JavaScript `a || b` for a possibly-absent string `a` (absent or empty
string falls through to the default, as both are falsy). -/
def jsOrElse (a : Option String) (b : String) : String :=
  match a with
  | none => b
  | some s => if s = "" then b else s

/-- Rendering of a possibly-`undefined` JavaScript string inside a
template literal: `undefined` prints as `"undefined"`. -/
def jsShow (a : Option String) : String :=
  match a with
  | none => "undefined"
  | some s => s

/-- ASCII lowering of one character (the case mapping relevant to the
extension keys fed to `toLowerCase` in the code). -/
def jsToLowerChar (c : Char) : Char :=
  if 'A' ≤ c ∧ c ≤ 'Z' then Char.ofNat (c.toNat + 32) else c

/-- ASCII raising of one character (for `toUpperCase`). -/
def jsToUpperChar (c : Char) : Char :=
  if 'a' ≤ c ∧ c ≤ 'z' then Char.ofNat (c.toNat - 32) else c

/-- JavaScript `toLowerCase` (ASCII range). -/
def jsToLower (s : String) : String :=
  String.mk (s.data.map jsToLowerChar)

/-- JavaScript `toUpperCase` (ASCII range). -/
def jsToUpper (s : String) : String :=
  String.mk (s.data.map jsToUpperChar)

/-- Whether `pat` occurs as a contiguous subsequence of a list (used to
state that a piece of text does not appear in an output string). -/
def containsSeq {α : Type} [DecidableEq α] (pat : List α) : List α → Bool
  | [] => decide (pat = [])
  | c :: rest => pat.isPrefixOf (c :: rest) || containsSeq pat rest

/-! ## Ticket reference extractor

Embedding of `extractJiraTickets` (GitHub/JIRA utility module):

```js
const jiraPattern = /\b([A-Z][A-Z0-9]*-\d+)(?=[_\-\s\/]|$)/g;
const matches = text.match(jiraPattern) || [];
return [...new Set(matches)];
```

Matching this regex at a fixed position is deterministic: `[A-Z0-9]*`
must consume the maximal run (a shorter run leaves a class character
where the literal `-` is required, and `-` is not in the class), and
`\d+` must consume the maximal digit run (a shorter run leaves a digit
where the lookahead requires a separator or end of input, and a digit is
not a separator).  So the regex engine's backtracking is not observable
and the match attempt is embedded as a straight-line function. -/

/-- Attempt to match `[A-Z][A-Z0-9]*-\d+(?=[_\-\s\/]|$)` at the head of
`l`.  Returns the matched characters and the unconsumed remainder. -/
def matchTicketAt : List Char → Option (List Char × List Char)
  | [] => none
  | c :: rest =>
    if isUpperAZ c then
      let run := rest.takeWhile isUpperOrDigit
      match rest.dropWhile isUpperOrDigit with
      | [] => none
      | c1 :: r2 =>
        if c1 = '-' then
          let ds := r2.takeWhile isDigit09
          let r3 := r2.dropWhile isDigit09
          if ds.isEmpty then none
          else
            match r3 with
            | [] => some (c :: run ++ '-' :: ds, [])
            | d :: _ =>
              if isTicketSep d then some (c :: run ++ '-' :: ds, r3) else none
        else none
    else none

/-- The word-boundary `\b` before a word character, in terms of the
preceding character (`none` at the start of the string): it holds iff
the preceding character is absent or not a word character. -/
def boundaryOk (prev : Option Char) : Bool :=
  match prev with
  | none => true
  | some p => !(isWordChar p)

/-- Global scan of the ticket regex: walk the string left to right; at
each position where the word-boundary `\b` holds, attempt a match; on
success record `(start index, match)` and resume after the match (the
regex engine's `lastIndex`), otherwise advance one character.  `prev` is
the character before the current position; `fuel` only bounds the
recursion and any value at least the length of the remaining input gives
the full scan (each step consumes at least one character). -/
def scanTicketsAux : Nat → Nat → Option Char → List Char → List (Nat × List Char)
  | 0, _, _, _ => []
  | _ + 1, _, _, [] => []
  | fuel + 1, i, prev, c :: rest =>
    if boundaryOk prev then
      match matchTicketAt (c :: rest) with
      | some (m, after) => (i, m) :: scanTicketsAux fuel (i + m.length) m.getLast? after
      | none => scanTicketsAux fuel (i + 1) (some c) rest
    else scanTicketsAux fuel (i + 1) (some c) rest

/-- All (position, match) pairs the global ticket regex produces on `s`. -/
def ticketMatches (s : List Char) : List (Nat × List Char) :=
  scanTicketsAux s.length 0 none s

/-- The raw match list `text.match(jiraPattern) || []`. -/
def rawTicketMatches (text : String) : List String :=
  (ticketMatches text.data).map (fun p => String.mk p.2)

/-- Embedding of `extractJiraTickets`: global regex match followed by
`[...new Set(matches)]`. -/
def extractJiraTickets (text : String) : List String :=
  jsSetDedup (rawTicketMatches text)

/-- Embedding of `getJiraUrl` (hardcoded base URL). -/
def getJiraUrl (ticket : String) : String :=
  "https://jira2.workday.com/browse/" ++ ticket

/-- Grammar shape of a ticket-regex match: an uppercase letter, a run of
uppercase-or-digit characters, a literal hyphen, a nonempty digit run. -/
def TicketShape (m : List Char) : Prop :=
  ∃ u mid ds, m = u :: mid ++ '-' :: ds ∧ isUpperAZ u = true ∧
    (∀ c ∈ mid, isUpperOrDigit c = true) ∧ ds ≠ [] ∧
    (∀ c ∈ ds, isDigit09 c = true)

/-- The lookahead `(?=[_\-\s\/]|$)` seen from the remainder of the
input: it is empty (end of string) or starts with a separator character
— which consequently is not part of the match. -/
def SepOk (after : List Char) : Prop :=
  after = [] ∨ ∃ c t, after = c :: t ∧ isTicketSep c = true

/-- The word-boundary condition on the character preceding a match. -/
def PrevOk (prev : Option Char) : Prop :=
  prev = none ∨ ∃ p, prev = some p ∧ isWordChar p = false

/-! ## Figma link extractor

Embedding of `extractFigmaLinks` (JIRA ticket-details module):

```js
const figmaRegex = /https?:\/\/(?:www\.)?figma\.com\/(?:file|design)\/[a-zA-Z0-9]+\/[^?\s]*/g;
return text.match(figmaRegex) || [];
```

Matching at a fixed position is again deterministic: the optional `s` and
the `file`/`design` alternation are decided by the next character, the
optional `www.` alternative can only fail when the mandatory
`figma.com/` fails too (`w` never equals `f`), `[a-zA-Z0-9]+` must take
the maximal run before the literal `/`, and the trailing `[^?\s]*` is
greedy with nothing after it. -/

/-- Alphanumeric `[a-zA-Z0-9]`. -/
def isAlnum (c : Char) : Bool :=
  decide (('a' ≤ c ∧ c ≤ 'z') ∨ ('A' ≤ c ∧ c ≤ 'Z') ∨ ('0' ≤ c ∧ c ≤ '9'))

/-- Character class `[^?\s]` of the Figma regex's trailing segment. -/
def isUrlTailChar (c : Char) : Bool :=
  !(c = '?') && !(isJsWhitespace c)

/-- Strip a literal character sequence from the front of a list. -/
def stripLitChars : List Char → List Char → Option (List Char)
  | [], l => some l
  | _ :: _, [] => none
  | p :: ps, c :: cs => if c = p then stripLitChars ps cs else none

/-- Attempt to match the Figma-URL regex at the head of `l`.  Returns the
matched characters and the unconsumed remainder. -/
def matchFigmaAt (l : List Char) : Option (List Char × List Char) :=
  match stripLitChars "http".data l with
  | none => none
  | some r1 =>
    let proto : Option (List Char × List Char) :=
      match stripLitChars "s://".data r1 with
      | some r2 => some ("s://".data, r2)
      | none =>
        match stripLitChars "://".data r1 with
        | some r2 => some ("://".data, r2)
        | none => none
    match proto with
    | none => none
    | some (protoPart, r2) =>
      let www : List Char × List Char :=
        match stripLitChars "www.".data r2 with
        | some r3 => ("www.".data, r3)
        | none => ([], r2)
      match stripLitChars "figma.com/".data www.2 with
      | none => none
      | some r4 =>
        let seg : Option (List Char × List Char) :=
          match stripLitChars "file/".data r4 with
          | some r5 => some ("file/".data, r5)
          | none =>
            match stripLitChars "design/".data r4 with
            | some r5 => some ("design/".data, r5)
            | none => none
        match seg with
        | none => none
        | some (segPart, r5) =>
          let idRun := r5.takeWhile isAlnum
          match r5.dropWhile isAlnum with
          | '/' :: r7 =>
            if idRun.isEmpty then none
            else
              some ("http".data ++ protoPart ++ www.1 ++ "figma.com/".data ++
                      segPart ++ idRun ++ '/' :: r7.takeWhile isUrlTailChar,
                    r7.dropWhile isUrlTailChar)
          | _ => none

/-- Global scan of the Figma regex (no word-boundary assertion, so no
look-behind state is needed).  `fuel` at least the length of the input
gives the full scan. -/
def scanFigmaAux : Nat → List Char → List (List Char)
  | 0, _ => []
  | _ + 1, [] => []
  | fuel + 1, c :: rest =>
    match matchFigmaAt (c :: rest) with
    | some (m, after) => m :: scanFigmaAux fuel after
    | none => scanFigmaAux fuel rest

/-- Embedding of `extractFigmaLinks`: the early return on a falsy `text`
followed by the global regex match. -/
def extractFigmaLinks (text : String) : List String :=
  if text = "" then []
  else (scanFigmaAux text.data.length text.data).map String.mk

/-! ## Ticket detail fetcher

Embedding of the `get_jira_ticket_details` tool.  The outbound HTTP GET
is an oracle `fetchIssue : String → Except String JiraIssue`; every
failure mode of the real call (network error, non-2xx status, malformed
JSON, a response missing the `fields` object — any of which makes the
JavaScript `try` block throw) is folded into the oracle's `error` case,
whose payload is the JavaScript error message. -/

/-- The `fields` object of a JIRA issue response, with `Option` for the
fields the code reads with a default or an optional chain.  The
`components`/`fixVersions` entries are stored as their `name` strings
(the code immediately maps `c => c.name` / `v => v.name`). -/
structure JiraFields where
  summary : Option String
  description : Option String
  statusName : String
  priorityName : Option String
  assigneeDisplayName : Option String
  reporterDisplayName : Option String
  issuetypeName : String
  created : String
  updated : String
  labels : Option (List String)
  components : Option (List String)
  fixVersions : Option (List String)
deriving DecidableEq

/-- A well-formed JIRA issue response body. -/
structure JiraIssue where
  key : String
  fields : JiraFields
deriving DecidableEq

/-- The `ticket` object assembled by `get_jira_ticket_details`.  Fields
that the failure-path placeholder omits (and that the success path
always sets) are `Option`-typed, `none` meaning the JavaScript property
is absent. -/
structure TicketDetail where
  key : String
  summary : Option String
  description : String
  status : String
  priority : Option String
  assignee : Option String
  reporter : Option String
  issueType : Option String
  created : Option String
  updated : Option String
  labels : Option (List String)
  components : Option (List String)
  fixVersions : Option (List String)
  figmaLinks : List String
  url : String
deriving DecidableEq

/-- Result envelope of `get_jira_ticket_details` (the success object
carries no `error` property). -/
structure JiraResult where
  success : Bool
  error : Option String
  ticket : TicketDetail
deriving DecidableEq

/-- The hardcoded JIRA base URL. -/
def jiraBaseUrl : String := "https://jira2.workday.com"

/-- The placeholder ticket returned by the `catch` branch of
`get_jira_ticket_details`. -/
def jiraFallbackTicket (ticketId : String) : TicketDetail :=
  { key := ticketId
    summary := some ("JIRA ticket " ++ ticketId)
    description := "Unable to fetch ticket details from JIRA API"
    status := "Unknown"
    priority := none, assignee := none, reporter := none, issueType := none
    created := none, updated := none
    labels := none, components := none, fixVersions := none
    figmaLinks := []
    url := "https://jira2.workday.com/browse/" ++ ticketId }

/-- Embedding of the `func` of `get_jira_ticket_details`: on a resolved
fetch, normalize the fields and scan `summary + ' ' + description` for
Figma links; on any rejection, return the placeholder — the function is
total, it never throws. -/
def getJiraTicketDetails (fetchIssue : String → Except String JiraIssue)
    (ticketId : String) : JiraResult :=
  match fetchIssue ticketId with
  | .error e =>
    { success := false, error := some e, ticket := jiraFallbackTicket ticketId }
  | .ok issue =>
    let description := jsOrElse issue.fields.description "No description provided"
    let summaryText := jsOrElse issue.fields.summary ""
    let allText := summaryText ++ " " ++ description
    let figmaLinks := extractFigmaLinks allText
    { success := true
      error := none
      ticket :=
        { key := issue.key
          summary := issue.fields.summary
          description := description
          status := issue.fields.statusName
          priority := some (jsOrElse issue.fields.priorityName "Not set")
          assignee := some (jsOrElse issue.fields.assigneeDisplayName "Unassigned")
          reporter := some (jsOrElse issue.fields.reporterDisplayName "Unknown")
          issueType := some issue.fields.issuetypeName
          created := some issue.fields.created
          updated := some issue.fields.updated
          labels := some (issue.fields.labels.getD [])
          components := some (issue.fields.components.getD [])
          fixVersions := some (issue.fields.fixVersions.getD [])
          figmaLinks := figmaLinks
          url := jiraBaseUrl ++ "/browse/" ++ ticketId } }

/-! ## Narrative generator

Embedding of `generateDetailedSummary` (LLM integration module).  The
LLM endpoint is an oracle `llm : String → Except String String` mapping
a prompt to the response `.content` (or a rejection); the
`get_jira_ticket_details.invoke` call is an oracle
`jiraInvoke : String → Except String JiraResult` (its rejection case
corresponds to the inner `try`/`catch`). -/

/-- A file entry of the GitHub compare response (the fields the code
reads).  Line counts are integers as in JavaScript. -/
structure FileChange where
  filename : String
  status : String
  additions : Int
  deletions : Int
deriving DecidableEq

/-- The `stats` object of the compare response. -/
structure Stats where
  additions : Int
  deletions : Int
  total : Int
deriving DecidableEq

/-- JavaScript `split` on a single-character separator. -/
def splitOnChar (sep : Char) : List Char → List (List Char)
  | [] => [[]]
  | c :: rest =>
    let r := splitOnChar sep rest
    if c = sep then [] :: r
    else
      match r with
      | [] => [[c]]
      | h :: t => (c :: h) :: t

/-- Embedding of `filename.split('.').pop() || 'no-extension'`. -/
def jsExtOf (filename : String) : String :=
  jsOrElse (((splitOnChar '.' filename.data).map String.mk).getLast?)
    "no-extension"

/-- The fixed extension-to-category table of `getFileTypeCategory`. -/
def fileTypeCategoryTable (key : String) : Option String :=
  match key with
  | "js" => some "JavaScript"
  | "jsx" => some "React Component"
  | "ts" => some "TypeScript"
  | "tsx" => some "React TypeScript"
  | "vue" => some "Vue Component"
  | "html" => some "HTML"
  | "css" => some "CSS"
  | "scss" => some "SCSS"
  | "sass" => some "SASS"
  | "less" => some "LESS"
  | "py" => some "Python"
  | "java" => some "Java"
  | "go" => some "Go"
  | "rs" => some "Rust"
  | "php" => some "PHP"
  | "rb" => some "Ruby"
  | "cs" => some "C#"
  | "cpp" => some "C++"
  | "c" => some "C"
  | "json" => some "JSON Config"
  | "yaml" => some "YAML Config"
  | "yml" => some "YAML Config"
  | "xml" => some "XML Config"
  | "toml" => some "TOML Config"
  | "ini" => some "INI Config"
  | "env" => some "Environment Config"
  | "properties" => some "Properties Config"
  | "md" => some "Markdown"
  | "txt" => some "Text"
  | "rst" => some "reStructuredText"
  | "sql" => some "SQL"
  | "db" => some "Database"
  | "dockerfile" => some "Docker"
  | "sh" => some "Shell Script"
  | "bat" => some "Batch Script"
  | "ps1" => some "PowerShell"
  | "lock" => some "Lock File"
  | "log" => some "Log File"
  | _ => none

/-- Embedding of `getFileTypeCategory`: lowercase lookup in the table,
unknown extensions rendered uppercased with a `File` suffix. -/
def getFileTypeCategory (extension : String) : String :=
  match fileTypeCategoryTable (jsToLower extension) with
  | some v => v
  | none => jsToUpper extension ++ " File"

/-- One line of the per-file summary fed to the three prompts. -/
def fileSummaryLine (file : FileChange) : String :=
  "- " ++ file.filename ++ " (" ++ file.status ++ ", " ++
    getFileTypeCategory (jsExtOf file.filename) ++ "): +" ++
    toString file.additions ++ "/-" ++ toString file.deletions ++ " lines"

/-- Embedding of `xs.join(', ') || 'None'` (an empty join is falsy). -/
def jsJoinOrNone (xs : Option (List String)) : String :=
  let s := String.intercalate ", " (xs.getD [])
  if s = "" then "None" else s

/-- The `JIRA Ticket Details` context block built when the ticket fetch
reports success. -/
def jiraDetailsBlock (ticket : TicketDetail) : String :=
  "\nJIRA Ticket Details (" ++ ticket.key ++ "):\n- Title: " ++
    jsShow ticket.summary ++ "\n- Status: " ++ ticket.status ++
    "\n- Priority: " ++ jsShow ticket.priority ++ "\n- Assignee: " ++
    jsShow ticket.assignee ++ "\n- Issue Type: " ++ jsShow ticket.issueType ++
    "\n- Description: " ++ ticket.description ++ "\n- Components: " ++
    jsJoinOrNone ticket.components ++ "\n- Labels: " ++
    jsJoinOrNone ticket.labels ++ "\n- Figma Links: " ++
    (if ticket.figmaLinks.isEmpty then "None"
     else String.intercalate ", " ticket.figmaLinks)

/-- The shared context section repeated verbatim inside each of the three
prompt template literals. -/
def narrativeContext (head base : String) (nFiles : Nat) (stats : Stats)
    (jiraContext jiraTicketDetails customContext fileSummary : String) : String :=
  "Context:\n- Branch: " ++ head ++ " → " ++ base ++
    "\n- Files Changed: " ++ toString nFiles ++
    "\n- Lines Added: +" ++ toString stats.additions ++
    "\n- Lines Deleted: -" ++ toString stats.deletions ++
    "\n- Net Change: " ++ toString (stats.additions - stats.deletions) ++
    "\n- " ++ jiraContext ++ jiraTicketDetails ++ customContext ++
    "\n\nFiles Modified:\n" ++ fileSummary ++ "\n\n"

/-- The context block as computed inside `generateDetailedSummary` from
its inputs (file summary, JIRA context with the first ticket expanded,
custom body). -/
def narrativeCtx (jiraInvoke : String → Except String JiraResult)
    (filesChanged : List FileChange) (stats : Stats) (head base : String)
    (jiraTickets : List String) (customBody : String) : String :=
  let fileSummary := String.intercalate "\n" (filesChanged.map fileSummaryLine)
  let jiraContext :=
    match jiraTickets with
    | [] => "No JIRA tickets found in branch name"
    | _ :: _ => "JIRA Tickets: " ++ String.intercalate ", " jiraTickets
  let jiraTicketDetails :=
    match jiraTickets with
    | [] => ""
    | primaryTicket :: _ =>
      match jiraInvoke primaryTicket with
      | .error _ => "\nJIRA Ticket: " ++ primaryTicket ++ " (details unavailable)"
      | .ok jiraResult =>
        if jiraResult.success then jiraDetailsBlock jiraResult.ticket else ""
  let customContext :=
    if customBody = "" then "" else "\nCustom Description Provided:\n" ++ customBody
  narrativeContext head base filesChanged.length stats jiraContext
    jiraTicketDetails customContext fileSummary

/-- The first prompt (`descriptionPrompt`). -/
def descriptionPrompt (ctx : String) : String :=
  "You are an expert software engineer assistant. Your task is to write a concise description for the \"Description:\" section of a pull request.\n\n"
    ++ ctx ++
  "Please provide a concise description (2-3 sentences maximum) that:\n   - Use the provided JIRA ticket details to understand the \"why\" and the business requirements.\n   - Use the provided Git Diff to understand the \"how\" and the technical implementation.\n   - Reference the JIRA ticket title and requirements when explaining the changes.\n   - Incorporate any custom description provided above into the summary.\n   - Write ONLY the content for the \"Description:\" section - do NOT include any markdown headers like \"## Description:\" or \"## Summary:\".\n   - Do not make up information; base the description strictly on the context provided.\n   - Keep it brief, focused, and professional.\n   - Focus on the main purpose and impact of the changes.\n   "

/-- The second prompt (`keyChangesPrompt`). -/
def keyChangesPrompt (ctx : String) : String :=
  "You are an expert software engineer assistant. Your task is to write a detailed \"Key Changes:\" section for a pull request.\n\n"
    ++ ctx ++
  "Based on the specific files and changes above, provide a detailed bulleted list of key changes that:\n   - Analyzes the file names, extensions, and change patterns to understand the technical scope\n   - Correlates the file changes with the JIRA ticket requirements and business context\n   - Describes specific features, functionality, and business value added\n   - Explains what new capabilities, improvements, or fixes were implemented\n   - References the JIRA ticket details (title, description, components, labels) to understand the business requirements\n   - Groups related changes logically (e.g., \"Frontend Updates\", \"API Changes\", \"Configuration Updates\")\n   - Provides context about the impact and scope of each change category\n   - Avoids mentioning specific file names, line numbers, or technical implementation details\n   - Write ONLY the bulleted list content - do NOT include \"Key Changes:\" header or any markdown headers\n   - Use bullet points (• or -) to list each key change\n   - Keep each point detailed but focused on user-facing features or business impact\n   - Do not make up information; base the content strictly on the actual files and changes provided\n   - Limit to 4-6 most important changes\n   - Start directly with the first bullet point, no introductory text\n   - Focus on \"what\" was added/improved and \"why\" it matters, not \"how\" it was implemented\n   - Include specific details about the functionality being added or improved\n   "

/-- The third prompt (`motivationPrompt`). -/
def motivationPrompt (ctx : String) : String :=
  "You are an expert software engineer assistant. Your task is to write a concise \"Motivation and Context:\" section for a pull request.\n\n"
    ++ ctx ++
  "Based on the specific files and changes above, provide a concise motivation and context (2-3 sentences maximum) that explains:\n   - WHY is this specific change required? What business problem does it solve?\n   - What specific functionality or capability is being added/improved?\n   - What will be the immediate impact for users or the system?\n   - Analyze the file names and changes to understand the actual purpose\n   - Use the JIRA ticket details (title, description, status, priority) to understand the business requirements\n   - Reference the JIRA ticket context when explaining the motivation\n   - Write ONLY the content for the \"Motivation and Context:\" section - do NOT include any markdown headers\n   - Keep it brief, direct, and focused on the specific changes being made\n   - Do not make up information; base the content strictly on the actual files and changes provided\n   "

/-- The three prose fragments of a PR description. -/
structure NarrativeBundle where
  detailedSummary : String
  keyChanges : String
  motivationContext : String
deriving DecidableEq

/-- The deterministic templated bundle returned by the `catch` branch of
`generateDetailedSummary`, built purely from the file count and the
addition/deletion counts. -/
def fallbackBundle (filesChanged : List FileChange) (stats : Stats)
    (head base : String) : NarrativeBundle :=
  { detailedSummary :=
      "This PR introduces changes from `" ++ head ++ "` to `" ++ base ++
        "` branch with " ++ toString filesChanged.length ++
        " files modified (" ++ toString stats.additions ++ " additions, " ++
        toString stats.deletions ++ " deletions)."
    keyChanges :=
      "• Modified " ++ toString filesChanged.length ++ " files with " ++
        toString stats.additions ++ " additions and " ++
        toString stats.deletions ++ " deletions"
    motivationContext :=
      "This change addresses the requirements specified in the JIRA ticket(s) mentioned below. The modifications improve system functionality and user experience." }

/-- Embedding of `generateDetailedSummary`: build the shared context,
then issue the three LLM calls sequentially inside one `try`; a
rejection of any call reaches the single `catch`, which returns the
templated fallback bundle. -/
def generateDetailedSummary (llm : String → Except String String)
    (jiraInvoke : String → Except String JiraResult)
    (filesChanged : List FileChange) (stats : Stats) (head base : String)
    (jiraTickets : List String) (customBody : String) : NarrativeBundle :=
  let ctx := narrativeCtx jiraInvoke filesChanged stats head base jiraTickets customBody
  match llm (descriptionPrompt ctx) with
  | .error _ => fallbackBundle filesChanged stats head base
  | .ok d =>
    match llm (keyChangesPrompt ctx) with
    | .error _ => fallbackBundle filesChanged stats head base
    | .ok k =>
      match llm (motivationPrompt ctx) with
      | .error _ => fallbackBundle filesChanged stats head base
      | .ok m => { detailedSummary := d, keyChanges := k, motivationContext := m }

/-! ## Diff analyzer

Embedding of `analyzeCodeDiff` (diff analysis module).  The compare-API
GET is an oracle `fetchCompare : Except String CompareData`; the only
statement of the `try` block that can throw is that fetch (the LLM and
ticket fetches are absorbed by inner handlers), so its rejection is
exactly what reaches the `catch` branch. -/

/-- The compare-endpoint response body (the fields the code reads; both
guarded with `|| <default>`). -/
structure CompareData where
  files : Option (List FileChange)
  stats : Option Stats
deriving DecidableEq

/-- A concrete renamed-file entry, used as a test input. -/
def sampleRenamedFile : FileChange :=
  { filename := "a.js", status := "renamed", additions := 1, deletions := 0 }

/-- `filesChanged.filter(f => f.status === 'added')`. -/
def newFilesOf (files : List FileChange) : List FileChange :=
  files.filter (fun f => decide (f.status = "added"))

/-- `filesChanged.filter(f => f.status === 'modified')`. -/
def modifiedFilesOf (files : List FileChange) : List FileChange :=
  files.filter (fun f => decide (f.status = "modified"))

/-- `filesChanged.filter(f => f.status === 'removed')`. -/
def deletedFilesOf (files : List FileChange) : List FileChange :=
  files.filter (fun f => decide (f.status = "removed"))

/-- `filesChanged.filter(f => f.status === 'renamed')` (computed by the
code but used in no output). -/
def renamedFilesOf (files : List FileChange) : List FileChange :=
  files.filter (fun f => decide (f.status = "renamed"))

/-- Increment the count of `key` in a JavaScript object modelled as an
insertion-ordered association list (`fileTypes[ext] = (fileTypes[ext] || 0) + 1`). -/
def bumpCount (key : String) : List (String × Nat) → List (String × Nat)
  | [] => [(key, 1)]
  | (k, n) :: rest =>
    if k = key then (k, n + 1) :: rest else (k, n) :: bumpCount key rest

/-- The `fileTypes` object: per-extension counts keyed by
`file.filename.split('.').pop() || 'no-extension'`, in insertion order. -/
def buildFileTypes (files : List FileChange) : List (String × Nat) :=
  files.foldl (fun acc f => bumpCount (jsExtOf f.filename) acc) []

/-- Numeric value of a digit string. -/
def digitsVal (s : String) : Nat :=
  s.data.foldl (fun a c => a * 10 + (c.toNat - 48)) 0

/-- Whether a JavaScript object key is an array index (canonical decimal
numeral below 2^32 - 1); such keys enumerate first in `Object.entries`. -/
def isArrayIndexKey (s : String) : Bool :=
  decide (s.data ≠ []) && s.data.all isDigit09 &&
    (decide (s = "0") || decide (s.data.head? ≠ some '0')) &&
    decide (digitsVal s < 4294967295)

/-- Insert into a list of entries kept ascending by numeric key value. -/
def insertAscIdx (x : String × Nat) : List (String × Nat) → List (String × Nat)
  | [] => [x]
  | y :: ys =>
    if digitsVal x.1 ≤ digitsVal y.1 then x :: y :: ys else y :: insertAscIdx x ys

/-- Sort entries ascending by numeric key value. -/
def sortAscIdx : List (String × Nat) → List (String × Nat)
  | [] => []
  | x :: xs => insertAscIdx x (sortAscIdx xs)

/-- `Object.entries` enumeration order: array-index keys first in
ascending numeric order, then the remaining keys in insertion order. -/
def jsEntriesOrder (l : List (String × Nat)) : List (String × Nat) :=
  sortAscIdx (l.filter (fun p => isArrayIndexKey p.1)) ++
    l.filter (fun p => !(isArrayIndexKey p.1))

/-- Stable insertion for the descending-by-count sort: an entry goes
after every earlier entry with a count at least as large, which is what
the stable `sort(([,a],[,b]) => b - a)` produces. -/
def insertCountDesc (x : String × Nat) : List (String × Nat) → List (String × Nat)
  | [] => [x]
  | y :: ys =>
    if x.2 ≥ y.2 then x :: y :: ys else y :: insertCountDesc x ys

/-- Stable sort of entries by descending count. -/
def sortByCountDesc : List (String × Nat) → List (String × Nat)
  | [] => []
  | x :: xs => insertCountDesc x (sortByCountDesc xs)

/-- The change-analysis block of the composed description: the four
counters, and the file-type histogram appended only when the `fileTypes`
object has at least one key. -/
def changeAnalysisBlock (filesChanged : List FileChange) : String :=
  let counters :=
    "- **New Files Added:** " ++ toString (newFilesOf filesChanged).length ++
    "\n- **Files Modified:** " ++ toString (modifiedFilesOf filesChanged).length ++
    "\n- **Files Deleted:** " ++ toString (deletedFilesOf filesChanged).length ++
    "\n- **Total Files Changed:** " ++ toString filesChanged.length
  let fileTypes := buildFileTypes filesChanged
  if fileTypes.isEmpty then counters
  else
    counters ++ "\n\n**File Type Analysis:**\n" ++
      String.intercalate "\n"
        ((sortByCountDesc (jsEntriesOrder fileTypes)).map
          (fun p => "- **." ++ p.1 ++ ":** " ++ toString p.2 ++ " files"))

/-- The ticket list backing the JIRA section:
`[...new Set([...extractJiraTickets(detailedSummary), ...extractJiraTickets(head)])]`. -/
def allJiraTickets (detailedSummary head : String) : List String :=
  jsSetDedup (extractJiraTickets detailedSummary ++ extractJiraTickets head)

/-- The JIRA section: a link bullet per ticket, or the placeholder
comment when no tickets were found. -/
def jiraSectionOf (tickets : List String) : String :=
  match tickets with
  | [] => "<!-- Please add Jira Link here -->"
  | _ :: _ =>
    String.intercalate "\n"
      (tickets.map (fun t => "- [" ++ t ++ "](" ++ getJiraUrl t ++ ")"))

/-- The Figma section: bullets from the first ticket's Figma links when
that fetch succeeds and yields links; empty otherwise (including when
the fetch throws — the inner `catch` only warns). -/
def figmaSectionOf (jiraInvoke : String → Except String JiraResult)
    (tickets : List String) : String :=
  match tickets with
  | [] => ""
  | t :: _ =>
    match jiraInvoke t with
    | .error _ => ""
    | .ok jiraResult =>
      if jiraResult.success && !jiraResult.ticket.figmaLinks.isEmpty then
        String.intercalate "\n"
          (jiraResult.ticket.figmaLinks.map
            (fun link => "- [Figma Design](" ++ link ++ ")"))
      else ""

/-- The fixed Markdown skeleton of the enhanced description. -/
def enhancedDescriptionTemplate (detailedSummary keyChanges motivationContext
    jiraSection figmaSection changeAnalysis : String) : String :=
  "<!--- Provide a general summary of your changes in the Title above by starting with Jira Ticket -->\n\n## Description:\n"
    ++ detailedSummary ++
  "\n\n   ### Key Changes:\n   " ++ keyChanges ++
  "\n\n## Motivation and Context:\n" ++ motivationContext ++
  "\n\n## Jira Ticket: \n" ++ jiraSection ++ "\n\n" ++
  (if figmaSection = "" then ""
   else "## Figma Links:\n" ++ figmaSection ++ "\n\n") ++
  "## Screenshots:\n| Before | After |\n| ------ | ----- |\n|--before-image--|--after-image-- |\n\n## Change Analysis:\n"
    ++ changeAnalysis ++
  "\n\n---\n\n> 🤖 **Created by AI Agent** - This PR was automatically generated with enhanced analysis and formatting."

/-- The `try` branch of `analyzeCodeDiff` after the compare fetch
resolved: default the missing response fields, generate the narrative,
extract and merge ticket references, and fill the template. -/
def analyzeCodeDiffSuccess (llm : String → Except String String)
    (jiraInvoke : String → Except String JiraResult)
    (compareData : CompareData) (head base customBody : String) : String :=
  let filesChanged := compareData.files.getD []
  let stats := compareData.stats.getD { additions := 0, deletions := 0, total := 0 }
  let branchJiraTickets := extractJiraTickets head
  let bundle :=
    generateDetailedSummary llm jiraInvoke filesChanged stats head base
      branchJiraTickets customBody
  let tickets := allJiraTickets bundle.detailedSummary head
  enhancedDescriptionTemplate bundle.detailedSummary bundle.keyChanges
    bundle.motivationContext (jiraSectionOf tickets)
    (figmaSectionOf jiraInvoke tickets) (changeAnalysisBlock filesChanged)

/-- The `catch` branch of `analyzeCodeDiff`: the static template with a
zero-valued change-analysis block. -/
def analyzeCodeDiffFallback (head base : String) : String :=
  "<!--- Provide a general summary of your changes in the Title above by starting with Jira Ticket -->\n\n## Description:\nThis PR introduces changes from `"
    ++ head ++ "` to `" ++ base ++
  "` branch.\n\n*Note: Unable to analyze code diff automatically. Please review the changes manually.*\n\n   ### Key Changes:\n   • Modified files with additions and deletions\n\n## Motivation and Context:\nThis change addresses the requirements specified in the JIRA ticket(s) mentioned below. The modifications improve system functionality and user experience.\n\n## Jira Ticket: \n<!-- Please add Jira Link here -->\n\n## Screenshots:\n| Before | After |\n| ------ | ----- |\n|--before-image--|--after-image-- |\n\n## Change Analysis:\n- **New Files Added:** 0\n- **Files Modified:** 0\n- **Files Deleted:** 0\n- **Total Files Changed:** 0\n\n\n---\n\n> 🤖 **Created by AI Agent** - This PR was automatically generated with enhanced analysis and formatting."

/-- Embedding of `analyzeCodeDiff`. -/
def analyzeCodeDiff (llm : String → Except String String)
    (jiraInvoke : String → Except String JiraResult)
    (fetchCompare : Except String CompareData)
    (head base customBody : String) : String :=
  match fetchCompare with
  | .ok compareData => analyzeCodeDiffSuccess llm jiraInvoke compareData head base customBody
  | .error _ => analyzeCodeDiffFallback head base

/-! ## Pull-request orchestrator: title suffixing

Embedding of the title step of `create_pull_request`:

```js
const aiSignature = " 🤖";
const finalTitle = title.endsWith(aiSignature) ? title : `${title}${aiSignature}`;
```
-/

/-- The fixed AI-agent signature suffix. -/
def aiSignature : String := " 🤖"

/-- The title actually submitted to the create-PR endpoint. -/
def addAiSignature (title : String) : String :=
  if jsEndsWith title aiSignature then title else title ++ aiSignature

/-! ## Evaluation sanity checks -/

example : extractJiraTickets "TICKET-12345-feature" = ["TICKET-12345"] := by decide
example : extractJiraTickets "A1-2-3" = ["A1-2"] := by decide
example :
    extractFigmaLinks "see https://www.figma.com/file/Abc123/spec now" =
      ["https://www.figma.com/file/Abc123/spec"] := by decide
example :
    extractFigmaLinks "https://figma.com/design/Q7/x?node=1 http://www.figma.com/file/Z9/y" =
      ["https://figma.com/design/Q7/x", "http://www.figma.com/file/Z9/y"] := by decide
example : extractFigmaLinks "https://figma.com/board/Q7/x" = [] := by decide
example : jsExtOf "src/app.test.js" = "js" := by decide
example : jsExtOf "Makefile" = "Makefile" := by decide
example : jsExtOf "archive." = "no-extension" := by decide
example : jsExtOf "" = "no-extension" := by decide
example : getFileTypeCategory "YML" = "YAML Config" := by decide
example : getFileTypeCategory "xyz" = "XYZ File" := by decide
example : addAiSignature "Fix bug" = "Fix bug 🤖" := by decide
example : addAiSignature "Fix bug 🤖" = "Fix bug 🤖" := by decide
example :
    changeAnalysisBlock [sampleRenamedFile] =
      "- **New Files Added:** 0\n- **Files Modified:** 0\n- **Files Deleted:** 0\n- **Total Files Changed:** 1\n\n**File Type Analysis:**\n- **.js:** 1 files" := by
  decide

/-! ## Properties of `jsSetDedup` -/

theorem mem_jsSetDedup {α : Type} [DecidableEq α] {a : α} :
    ∀ {l : List α}, a ∈ jsSetDedup l ↔ a ∈ l
  | [] => Iff.rfl
  | x :: xs => by
    simp only [jsSetDedup, List.mem_cons, List.mem_filter, decide_eq_true_eq]
    constructor
    · rintro (rfl | ⟨h1, _⟩)
      · exact Or.inl rfl
      · exact Or.inr (mem_jsSetDedup.mp h1)
    · rintro (rfl | h)
      · exact Or.inl rfl
      · by_cases hx : a = x
        · exact Or.inl hx
        · exact Or.inr ⟨mem_jsSetDedup.mpr h, hx⟩

theorem nodup_jsSetDedup {α : Type} [DecidableEq α] :
    ∀ l : List α, (jsSetDedup l).Nodup
  | [] => List.nodup_nil
  | x :: xs => by
    refine List.Nodup.cons (fun hmem => ?_) ((nodup_jsSetDedup xs).filter _)
    rcases List.mem_filter.mp hmem with ⟨-, hne⟩
    simp at hne

theorem jsSetDedup_sublist {α : Type} [DecidableEq α] :
    ∀ l : List α, List.Sublist (jsSetDedup l) l
  | [] => List.Sublist.refl _
  | x :: xs =>
    List.Sublist.cons₂ x ((List.filter_sublist _).trans (jsSetDedup_sublist xs))

/-- Filtering preserves the relative order of first occurrences of the
elements it keeps. -/
theorem indexOf_filter_le_iff {α : Type} [DecidableEq α] (p : α → Bool) :
    ∀ (l : List α) {a b : α}, a ∈ l.filter p → b ∈ l.filter p →
      ((l.filter p).indexOf a ≤ (l.filter p).indexOf b ↔ l.indexOf a ≤ l.indexOf b)
  | [], a, b, ha, _ => by simp at ha
  | c :: l, a, b, ha, hb => by
    by_cases hpc : p c
    · rw [List.filter_cons_of_pos hpc] at ha hb ⊢
      by_cases hac : a = c
      · subst hac
        exact iff_of_true (by rw [List.indexOf_cons_self]; exact Nat.zero_le _)
          (by rw [List.indexOf_cons_self]; exact Nat.zero_le _)
      · by_cases hbc : b = c
        · subst hbc
          rw [List.indexOf_cons_self, List.indexOf_cons_ne _ (Ne.symm hac),
            List.indexOf_cons_self, List.indexOf_cons_ne _ (Ne.symm hac)]
          exact iff_of_false (Nat.not_succ_le_zero _) (Nat.not_succ_le_zero _)
        · have ha' : a ∈ l.filter p := (List.mem_cons.mp ha).resolve_left hac
          have hb' : b ∈ l.filter p := (List.mem_cons.mp hb).resolve_left hbc
          rw [List.indexOf_cons_ne _ (Ne.symm hac), List.indexOf_cons_ne _ (Ne.symm hbc),
            List.indexOf_cons_ne _ (Ne.symm hac), List.indexOf_cons_ne _ (Ne.symm hbc)]
          simpa [Nat.succ_le_succ_iff] using indexOf_filter_le_iff p l ha' hb'
    · rw [List.filter_cons_of_neg hpc] at ha hb ⊢
      have hac : a ≠ c := by rintro rfl; exact hpc (List.of_mem_filter ha)
      have hbc : b ≠ c := by rintro rfl; exact hpc (List.of_mem_filter hb)
      rw [List.indexOf_cons_ne _ (Ne.symm hac), List.indexOf_cons_ne _ (Ne.symm hbc)]
      simpa [Nat.succ_le_succ_iff] using indexOf_filter_le_iff p l ha hb

/-- `jsSetDedup` preserves the relative order of first occurrences. -/
theorem jsSetDedup_indexOf_le_iff {α : Type} [DecidableEq α] :
    ∀ (l : List α) {a b : α}, a ∈ jsSetDedup l → b ∈ jsSetDedup l →
      ((jsSetDedup l).indexOf a ≤ (jsSetDedup l).indexOf b ↔
        l.indexOf a ≤ l.indexOf b)
  | [], a, b, ha, _ => by simp [jsSetDedup] at ha
  | x :: xs, a, b, ha, hb => by
    simp only [jsSetDedup] at ha hb ⊢
    by_cases hax : a = x
    · subst hax
      exact iff_of_true (by rw [List.indexOf_cons_self]; exact Nat.zero_le _)
        (by rw [List.indexOf_cons_self]; exact Nat.zero_le _)
    · by_cases hbx : b = x
      · subst hbx
        rw [List.indexOf_cons_self, List.indexOf_cons_ne _ (Ne.symm hax),
          List.indexOf_cons_self, List.indexOf_cons_ne _ (Ne.symm hax)]
        exact iff_of_false (Nat.not_succ_le_zero _) (Nat.not_succ_le_zero _)
      · have ha' : a ∈ (jsSetDedup xs).filter (fun y => decide (y ≠ x)) :=
          (List.mem_cons.mp ha).resolve_left hax
        have hb' : b ∈ (jsSetDedup xs).filter (fun y => decide (y ≠ x)) :=
          (List.mem_cons.mp hb).resolve_left hbx
        have ha'' : a ∈ jsSetDedup xs := (List.mem_filter.mp ha').1
        have hb'' : b ∈ jsSetDedup xs := (List.mem_filter.mp hb').1
        rw [List.indexOf_cons_ne _ (Ne.symm hax), List.indexOf_cons_ne _ (Ne.symm hbx),
          List.indexOf_cons_ne _ (Ne.symm hax), List.indexOf_cons_ne _ (Ne.symm hbx)]
        simp only [Nat.succ_le_succ_iff]
        exact (indexOf_filter_le_iff _ _ ha' hb').trans
          (jsSetDedup_indexOf_le_iff xs ha'' hb'')

/-! ## Counting lemma for the change-analysis block -/

theorem counts_le_length :
    ∀ files : List FileChange,
      (newFilesOf files).length + (modifiedFilesOf files).length +
        (deletedFilesOf files).length + (renamedFilesOf files).length ≤
        files.length
  | [] => by simp [newFilesOf, modifiedFilesOf, deletedFilesOf, renamedFilesOf]
  | f :: fs => by
    have ih := counts_le_length fs
    simp only [newFilesOf, modifiedFilesOf, deletedFilesOf, renamedFilesOf,
      List.filter_cons, List.length_cons] at ih ⊢
    split_ifs <;> simp_all <;> omega

/-! ## Soundness of the ticket scanner -/

theorem boundaryOk_iff (prev : Option Char) :
    boundaryOk prev = true ↔ PrevOk prev := by
  cases prev with
  | none => simp [boundaryOk, PrevOk]
  | some p => simp [boundaryOk, PrevOk]

theorem isWordChar_of_digit {c : Char} (h : isDigit09 c = true) :
    isWordChar c = true := by
  have hd := of_decide_eq_true h
  exact decide_eq_true (Or.inr (Or.inr (Or.inl hd)))

theorem matchTicketAt_sound :
    ∀ {l m after : List Char}, matchTicketAt l = some (m, after) →
      l = m ++ after ∧ TicketShape m ∧ SepOk after := by
  intro l m after h
  match l with
  | [] => simp [matchTicketAt] at h
  | c :: rest =>
    simp only [matchTicketAt] at h
    by_cases hc : isUpperAZ c = true
    case neg => simp [hc] at h
    rw [if_pos hc] at h
    rcases hdw : rest.dropWhile isUpperOrDigit with _ | ⟨c1, r2⟩ <;> rw [hdw] at h
    · simp at h
    dsimp only at h
    by_cases hc1 : c1 = '-'
    case neg => simp [hc1] at h
    rw [if_pos hc1] at h
    subst hc1
    by_cases hds : (r2.takeWhile isDigit09).isEmpty = true
    · rw [if_pos hds] at h; simp at h
    rw [if_neg hds] at h
    have hrest : rest = rest.takeWhile isUpperOrDigit ++ '-' :: r2 := by
      conv_lhs => rw [← List.takeWhile_append_dropWhile isUpperOrDigit rest]
      rw [hdw]
    have hr2 : r2 = r2.takeWhile isDigit09 ++ r2.dropWhile isDigit09 :=
      (List.takeWhile_append_dropWhile isDigit09 r2).symm
    have hshape : TicketShape (c :: rest.takeWhile isUpperOrDigit ++
        '-' :: r2.takeWhile isDigit09) := by
      refine ⟨c, rest.takeWhile isUpperOrDigit, r2.takeWhile isDigit09, rfl, hc,
        fun x hx => List.mem_takeWhile_imp hx, ?_, fun x hx => List.mem_takeWhile_imp hx⟩
      intro hnil
      exact hds (by rw [hnil]; rfl)
    rcases hr3 : r2.dropWhile isDigit09 with _ | ⟨d, r4⟩ <;> rw [hr3] at h <;>
      dsimp only at h
    · simp only [Option.some.injEq, Prod.mk.injEq] at h
      obtain ⟨hm, hafter⟩ := h
      subst hm; subst hafter
      refine ⟨?_, hshape, Or.inl rfl⟩
      conv_lhs => rw [hrest, hr2, hr3]
      simp
    · by_cases hsep : isTicketSep d = true
      case neg => simp [hsep] at h
      rw [if_pos hsep] at h
      simp only [Option.some.injEq, Prod.mk.injEq] at h
      obtain ⟨hm, hafter⟩ := h
      subst hm; subst hafter
      refine ⟨?_, hshape, Or.inr ⟨d, r4, rfl, hsep⟩⟩
      conv_lhs => rw [hrest, hr2, hr3]
      simp

/-- The last character of a ticket match is a digit, hence a word
character (so a new match can never begin immediately after one). -/
theorem ticketShape_getLast_word {m : List Char} (h : TicketShape m) :
    ∃ d, m.getLast? = some d ∧ isWordChar d = true := by
  obtain ⟨u, mid, ds, hm, -, -, hds, hdig⟩ := h
  subst hm
  have hlast : ∃ d, ds.getLast? = some d ∧ d ∈ ds := by
    rcases ds with _ | ⟨d0, ds'⟩
    · exact absurd rfl hds
    · exact ⟨(d0 :: ds').getLast (by simp), List.getLast?_eq_getLast _ _,
        List.getLast_mem _⟩
  obtain ⟨d, hdlast, hdmem⟩ := hlast
  refine ⟨d, ?_, isWordChar_of_digit (hdig d hdmem)⟩
  rw [show u :: mid ++ '-' :: ds = (u :: mid ++ ['-']) ++ ds by simp]
  rw [List.getLast?_append_of_ne_nil _ hds]
  exact hdlast

/-- Shifting the scan-soundness conclusion across one skipped
character. -/
theorem scan_shift {i j : Nat} {c : Char} {rest m : List Char} (prev : Option Char)
    (H : ∃ k after, j = (i + 1) + k ∧ rest.drop k = m ++ after ∧ TicketShape m ∧
      SepOk after ∧ ((k = 0 ∧ PrevOk (some c)) ∨
        (∃ c', 0 < k ∧ rest.drop (k - 1) = c' :: (m ++ after) ∧ isWordChar c' = false))) :
    ∃ k after, j = i + k ∧ (c :: rest).drop k = m ++ after ∧ TicketShape m ∧
      SepOk after ∧ ((k = 0 ∧ PrevOk prev) ∨
        (∃ c', 0 < k ∧ (c :: rest).drop (k - 1) = c' :: (m ++ after) ∧
          isWordChar c' = false)) := by
  obtain ⟨k, after, hj, hdrop, hshape, hsep, hdisj⟩ := H
  refine ⟨k + 1, after, by omega, by simpa using hdrop, hshape, hsep, Or.inr ?_⟩
  rcases hdisj with ⟨hk0, hprev⟩ | ⟨c', hkpos, hdrop', hword⟩
  · subst hk0
    rcases hprev with hnone | ⟨p, hp, hw⟩
    · cases hnone
    · have hpc : p = c := by injection hp with h'; exact h'.symm
      subst hpc
      exact ⟨p, by omega, by simpa using hdrop, hw⟩
  · refine ⟨c', by omega, ?_, hword⟩
    have hk : k + 1 - 1 = (k - 1) + 1 := by omega
    rw [hk]
    simpa using hdrop'

/-- Soundness of the global ticket scan: every produced `(position,
match)` pair decomposes the input at that position into the match
followed by a remainder satisfying the lookahead, the match has the
grammar shape, and the position is at a word boundary (start of input or
preceded by a non-word character). -/
theorem scanTicketsAux_sound :
    ∀ (fuel i : Nat) (prev : Option Char) (l : List Char) (j : Nat) (m : List Char),
      (j, m) ∈ scanTicketsAux fuel i prev l →
      ∃ k after, j = i + k ∧ l.drop k = m ++ after ∧ TicketShape m ∧ SepOk after ∧
        ((k = 0 ∧ PrevOk prev) ∨
          (∃ c', 0 < k ∧ l.drop (k - 1) = c' :: (m ++ after) ∧ isWordChar c' = false))
  | 0, i, prev, l, j, m => by intro h; simp [scanTicketsAux] at h
  | fuel + 1, i, prev, [], j, m => by intro h; simp [scanTicketsAux] at h
  | fuel + 1, i, prev, c :: rest, j, m => by
    intro h
    rw [scanTicketsAux] at h
    by_cases hb : boundaryOk prev = true
    case neg =>
      rw [if_neg hb] at h
      exact scan_shift prev (scanTicketsAux_sound fuel (i + 1) (some c) rest j m h)
    rw [if_pos hb] at h
    rcases hm : matchTicketAt (c :: rest) with _ | ⟨m0, after0⟩ <;> rw [hm] at h
    · exact scan_shift prev (scanTicketsAux_sound fuel (i + 1) (some c) rest j m h)
    · obtain ⟨hl, hshape0, hsep0⟩ := matchTicketAt_sound hm
      rcases List.mem_cons.mp h with heq | htail
      · obtain ⟨hj, hm'⟩ := Prod.mk.injEq .. ▸ heq
        subst hj; subst hm'
        exact ⟨0, after0, by omega, by simpa using hl, hshape0, hsep0,
          Or.inl ⟨rfl, (boundaryOk_iff prev).mp hb⟩⟩
      · obtain ⟨k', after', hj, hdrop, hshape, hsep, hdisj⟩ :=
          scanTicketsAux_sound fuel (i + m0.length) m0.getLast? after0 j m htail
        refine ⟨m0.length + k', after', by omega, ?_, hshape, hsep, ?_⟩
        · rw [hl, List.drop_append]
          exact hdrop
        · rcases hdisj with ⟨hk0, hprev⟩ | ⟨c', hkpos, hdrop', hword⟩
          · exfalso
            obtain ⟨d, hdlast, hdword⟩ := ticketShape_getLast_word hshape0
            rcases hprev with hnone | ⟨p, hp, hw⟩
            · rw [hdlast] at hnone; cases hnone
            · rw [hdlast] at hp
              obtain rfl : d = p := by injection hp
              rw [hdword] at hw; cases hw
          · refine Or.inr ⟨c', by omega, ?_, hword⟩
            have hk : m0.length + k' - 1 = m0.length + (k' - 1) := by omega
            rw [hk, hl, List.drop_append]
            exact hdrop'

/-! ## Claim theorems -/

/-- Claim C1: if any of the three sequential LLM generation calls of
`generateDetailedSummary` rejects, the returned narrative bundle is the
deterministic templated fallback built purely from counts, and the
bundle never mixes a successfully generated fragment with fallback text:
the result is either the full fallback bundle or assembled from three
successful responses. -/
theorem narrative_all_or_nothing (llm : String → Except String String)
    (jiraInvoke : String → Except String JiraResult)
    (filesChanged : List FileChange) (stats : Stats) (head base : String)
    (jiraTickets : List String) (customBody : String) :
    (((∃ e, llm (descriptionPrompt (narrativeCtx jiraInvoke filesChanged stats
          head base jiraTickets customBody)) = .error e) ∨
      (∃ e, llm (keyChangesPrompt (narrativeCtx jiraInvoke filesChanged stats
          head base jiraTickets customBody)) = .error e) ∨
      (∃ e, llm (motivationPrompt (narrativeCtx jiraInvoke filesChanged stats
          head base jiraTickets customBody)) = .error e)) →
      generateDetailedSummary llm jiraInvoke filesChanged stats head base
          jiraTickets customBody =
        fallbackBundle filesChanged stats head base) ∧
    (generateDetailedSummary llm jiraInvoke filesChanged stats head base
        jiraTickets customBody = fallbackBundle filesChanged stats head base ∨
      ∃ d k m,
        llm (descriptionPrompt (narrativeCtx jiraInvoke filesChanged stats
          head base jiraTickets customBody)) = .ok d ∧
        llm (keyChangesPrompt (narrativeCtx jiraInvoke filesChanged stats
          head base jiraTickets customBody)) = .ok k ∧
        llm (motivationPrompt (narrativeCtx jiraInvoke filesChanged stats
          head base jiraTickets customBody)) = .ok m ∧
        generateDetailedSummary llm jiraInvoke filesChanged stats head base
          jiraTickets customBody =
          { detailedSummary := d, keyChanges := k, motivationContext := m }) := by
  rcases h1 : llm (descriptionPrompt (narrativeCtx jiraInvoke filesChanged stats
      head base jiraTickets customBody)) with e1 | d1
  · exact ⟨fun _ => by simp [generateDetailedSummary, h1],
      Or.inl (by simp [generateDetailedSummary, h1])⟩
  · rcases h2 : llm (keyChangesPrompt (narrativeCtx jiraInvoke filesChanged stats
        head base jiraTickets customBody)) with e2 | k2
    · exact ⟨fun _ => by simp [generateDetailedSummary, h1, h2],
        Or.inl (by simp [generateDetailedSummary, h1, h2])⟩
    · rcases h3 : llm (motivationPrompt (narrativeCtx jiraInvoke filesChanged stats
          head base jiraTickets customBody)) with e3 | m3
      · exact ⟨fun _ => by simp [generateDetailedSummary, h1, h2, h3],
          Or.inl (by simp [generateDetailedSummary, h1, h2, h3])⟩
      · constructor
        · rintro (⟨e, he⟩ | ⟨e, he⟩ | ⟨e, he⟩) <;> simp at he
        · exact Or.inr ⟨d1, k2, m3, rfl, rfl, rfl,
            by simp [generateDetailedSummary, h1, h2, h3]⟩

theorem narrative_all_or_nothing_witness :
    generateDetailedSummary (fun _ => Except.error "LLM unavailable")
        (fun _ => Except.error "no jira") [] ⟨0, 0, 0⟩ "feature" "main" [] "" =
      fallbackBundle [] ⟨0, 0, 0⟩ "feature" "main" :=
  (narrative_all_or_nothing _ _ _ _ _ _ _ _).1 (Or.inl ⟨"LLM unavailable", rfl⟩)

/-- Claim C2: every ticket ID in the list backing the composed
description's JIRA section (`allJiraTickets`, from which the section's
link bullets are generated inside `analyzeCodeDiffSuccess`) is a member
of the union of the tickets extracted from the generated summary text
and the tickets extracted from the head branch name. -/
theorem jira_section_ticket_sources (detailedSummary head t : String)
    (ht : t ∈ allJiraTickets detailedSummary head) :
    t ∈ extractJiraTickets detailedSummary ∨ t ∈ extractJiraTickets head :=
  List.mem_append.mp (mem_jsSetDedup.mp ht)

theorem jira_section_ticket_sources_witness :
    "ABC-1" ∈ allJiraTickets "Implements ABC-1 fix" "XY-2-branch" ∧
      ("ABC-1" ∈ extractJiraTickets "Implements ABC-1 fix" ∨
        "ABC-1" ∈ extractJiraTickets "XY-2-branch") :=
  ⟨by decide, jira_section_ticket_sources _ _ _ (by decide)⟩

/-- Claim C5: whenever the issue-tracker fetch fails for any reason, the
ticket-detail fetcher returns (it is a total function, it never throws)
an envelope with `success := false` and a placeholder ticket whose key
is the requested id, whose status is `"Unknown"` and whose `figmaLinks`
is empty. -/
theorem ticket_fetch_failure_placeholder
    (fetchIssue : String → Except String JiraIssue) (ticketId e : String)
    (h : fetchIssue ticketId = .error e) :
    getJiraTicketDetails fetchIssue ticketId =
      { success := false, error := some e, ticket := jiraFallbackTicket ticketId } ∧
    (getJiraTicketDetails fetchIssue ticketId).success = false ∧
    (getJiraTicketDetails fetchIssue ticketId).ticket.key = ticketId ∧
    (getJiraTicketDetails fetchIssue ticketId).ticket.status = "Unknown" ∧
    (getJiraTicketDetails fetchIssue ticketId).ticket.figmaLinks = [] := by
  unfold getJiraTicketDetails
  rw [h]
  exact ⟨rfl, rfl, rfl, rfl, rfl⟩

theorem ticket_fetch_failure_placeholder_witness :
    getJiraTicketDetails (fun _ => Except.error "Request failed with status code 404")
        "ABC-123" =
      { success := false, error := some "Request failed with status code 404",
        ticket := jiraFallbackTicket "ABC-123" } :=
  (ticket_fetch_failure_placeholder
    (fun _ => Except.error "Request failed with status code 404") "ABC-123"
    "Request failed with status code 404" rfl).1

/-- Claim C6: for an empty files list the change-analysis block reports
all four counters as 0 and omits the File Type Analysis histogram
entirely. -/
theorem change_analysis_empty_files :
    changeAnalysisBlock [] =
      "- **New Files Added:** 0\n- **Files Modified:** 0\n- **Files Deleted:** 0\n- **Total Files Changed:** 0" ∧
    containsSeq "File Type Analysis".data (changeAnalysisBlock []).data = false := by
  constructor <;> decide

/-- Claim C7: the title-suffixing step of `create_pull_request` is
idempotent: the signature suffix is appended only when the title does
not already end with it, so applying the operation twice equals applying
it once. -/
theorem title_suffix_idempotent (title : String) :
    addAiSignature (addAiSignature title) = addAiSignature title := by
  by_cases h : jsEndsWith title aiSignature = true
  · simp [addAiSignature, h]
  · have h2 : jsEndsWith (title ++ aiSignature) aiSignature = true := by
      unfold jsEndsWith
      rw [String.data_append, List.isSuffixOf_iff_suffix]
      exact List.suffix_append _ _
    simp [addAiSignature, h, h2]

/-- Claim C8: on a successful fetch, the `figmaLinks` field is the scan
of the concatenation of the ticket's summary and description (with their
JavaScript defaults) by the Figma-URL regex; the scan collects the
non-overlapping matches in encounter order and preserves duplicates, as
the two concrete scans show. -/
theorem figma_links_from_ticket_text
    (fetchIssue : String → Except String JiraIssue) (ticketId : String)
    (issue : JiraIssue) (h : fetchIssue ticketId = .ok issue) :
    (getJiraTicketDetails fetchIssue ticketId).ticket.figmaLinks =
      extractFigmaLinks (jsOrElse issue.fields.summary "" ++ " " ++
        jsOrElse issue.fields.description "No description provided") ∧
    extractFigmaLinks
        "https://www.figma.com/file/A1/x https://www.figma.com/file/A1/x" =
      ["https://www.figma.com/file/A1/x", "https://www.figma.com/file/A1/x"] ∧
    extractFigmaLinks
        "https://figma.com/design/B2/y then https://figma.com/file/A1/x" =
      ["https://figma.com/design/B2/y", "https://figma.com/file/A1/x"] := by
  refine ⟨?_, by decide, by decide⟩
  unfold getJiraTicketDetails
  rw [h]

theorem figma_links_from_ticket_text_witness :
    (getJiraTicketDetails
        (fun _ => Except.ok
          { key := "DES-9"
            fields :=
              { summary := some "See https://www.figma.com/file/A1/x"
                description := some "and https://www.figma.com/file/A1/x again"
                statusName := "Open", priorityName := none
                assigneeDisplayName := none, reporterDisplayName := none
                issuetypeName := "Story", created := "", updated := ""
                labels := none, components := none, fixVersions := none } })
        "DES-9").ticket.figmaLinks =
      extractFigmaLinks (jsOrElse (some "See https://www.figma.com/file/A1/x") "" ++
        " " ++ jsOrElse (some "and https://www.figma.com/file/A1/x again")
          "No description provided") :=
  (figma_links_from_ticket_text _ "DES-9" _ rfl).1

/-- Claim C9: the total counter counts every file, including renamed
ones, while the three listed category counters only count files with
status `added`, `modified` and `removed`; hence with at least one
renamed file the sum of the three categories is strictly below the
total. -/
theorem renamed_files_undercounted (files : List FileChange)
    (h : ∃ f ∈ files, f.status = "renamed") :
    (newFilesOf files).length + (modifiedFilesOf files).length +
      (deletedFilesOf files).length < files.length := by
  have hle := counts_le_length files
  rcases h with ⟨f, hf, hst⟩
  have hmem : f ∈ renamedFilesOf files := by
    simp [renamedFilesOf, List.mem_filter, hf, hst]
  have hpos : 0 < (renamedFilesOf files).length := List.length_pos_of_mem hmem
  omega

/-- Claim C3: for every input, `extractJiraTickets` returns a list
without duplicates whose membership agrees with the raw match list and
whose ordering agrees with the order of first occurrence of the raw
matches; on the sample input the duplicate is collapsed and the
lowercase key ignored. -/
theorem ticket_extractor_dedup :
    (∀ text : String, (extractJiraTickets text).Nodup) ∧
    (∀ (text t : String), t ∈ extractJiraTickets text ↔ t ∈ rawTicketMatches text) ∧
    (∀ (text a b : String), a ∈ extractJiraTickets text →
      b ∈ extractJiraTickets text →
      ((extractJiraTickets text).indexOf a ≤ (extractJiraTickets text).indexOf b ↔
        (rawTicketMatches text).indexOf a ≤ (rawTicketMatches text).indexOf b)) ∧
    extractJiraTickets "Fix ABC-123 and abc-999 for ABC-123/ui" = ["ABC-123"] :=
  ⟨fun _ => nodup_jsSetDedup _, fun _ _ => mem_jsSetDedup,
    fun _ _ _ ha hb => jsSetDedup_indexOf_le_iff _ ha hb, by decide⟩

theorem ticket_extractor_dedup_witness :
    "ABC-123" ∈ extractJiraTickets "Fix ABC-123 and abc-999 for ABC-123/ui" ↔
      "ABC-123" ∈ rawTicketMatches "Fix ABC-123 and abc-999 for ABC-123/ui" :=
  ticket_extractor_dedup.2.1 "Fix ABC-123 and abc-999 for ABC-123/ui" "ABC-123"

/-- Claim C4: every match the ticket scanner produces decomposes the
input at the match position into the match (an uppercase letter, an
uppercase/digit run, a hyphen, digits) followed by a remainder that is
empty or starts with one of the separators `_`, `-`, whitespace, `/` —
the separator is looked ahead, not consumed; consequently `"ABC-123X"`
yields no match while `"ABC-123-fix"` and `"ABC-123"` yield
`"ABC-123"`. -/
theorem ticket_lookahead_semantics :
    (∀ (s : String) (j : Nat) (m : List Char), (j, m) ∈ ticketMatches s.data →
      ∃ after, s.data.drop j = m ++ after ∧ TicketShape m ∧ SepOk after) ∧
    extractJiraTickets "ABC-123X" = [] ∧
    extractJiraTickets "ABC-123-fix" = ["ABC-123"] ∧
    extractJiraTickets "ABC-123" = ["ABC-123"] := by
  refine ⟨?_, by decide, by decide, by decide⟩
  intro s j m h
  obtain ⟨k, after, hj, hdrop, hshape, hsep, -⟩ :=
    scanTicketsAux_sound _ 0 none _ j m h
  obtain rfl : j = k := by omega
  exact ⟨after, hdrop, hshape, hsep⟩

theorem ticket_lookahead_semantics_witness :
    ∃ after, (String.data "ABC-123-fix").drop 0 = String.data "ABC-123" ++ after ∧
      TicketShape (String.data "ABC-123") ∧ SepOk after :=
  ticket_lookahead_semantics.1 "ABC-123-fix" 0 (String.data "ABC-123") (by decide)

/-- Claim C10: the ticket scanner only matches at word boundaries: a
match at a position past the start of the input is immediately preceded
by a non-word character (so never by a letter, digit or underscore);
consequently `"xABC-123"` and `"9ABC-123"` yield the empty list. -/
theorem ticket_word_boundary_semantics :
    (∀ (s : String) (j : Nat) (m : List Char), (j, m) ∈ ticketMatches s.data →
      j = 0 ∨ ∃ c after, s.data.drop (j - 1) = c :: (m ++ after) ∧
        isWordChar c = false) ∧
    extractJiraTickets "xABC-123" = [] ∧
    extractJiraTickets "9ABC-123" = [] := by
  refine ⟨?_, by decide, by decide⟩
  intro s j m h
  obtain ⟨k, after, hj, hdrop, -, -, hdisj⟩ :=
    scanTicketsAux_sound _ 0 none _ j m h
  obtain rfl : j = k := by omega
  rcases hdisj with ⟨rfl, -⟩ | ⟨c, -, hdrop', hword⟩
  · exact Or.inl rfl
  · exact Or.inr ⟨c, after, hdrop', hword⟩

theorem ticket_word_boundary_semantics_witness :
    2 = 0 ∨ ∃ c after, (String.data "a DEF-1").drop (2 - 1) =
        c :: (String.data "DEF-1" ++ after) ∧ isWordChar c = false :=
  ticket_word_boundary_semantics.1 "a DEF-1" 2 (String.data "DEF-1") (by decide)

theorem renamed_files_undercounted_witness :
    (∃ f ∈ [sampleRenamedFile], f.status = "renamed") ∧
    (newFilesOf [sampleRenamedFile]).length +
      (modifiedFilesOf [sampleRenamedFile]).length +
      (deletedFilesOf [sampleRenamedFile]).length <
      ([sampleRenamedFile] : List FileChange).length :=
  ⟨by decide, renamed_files_undercounted _ (by decide)⟩

end PrCopilot
